import Mathlib

/-!
Verification of `src/devtools/dependencies/dependency.py`.

The Python class `Dependency` is shallowly embedded as a Lean structure
over `Option String` fields, with Python truthiness made explicit
(`None` and the empty string are falsy).  Fallible accessors return
`Except String` carrying the exception messages of the source.
-/

namespace Devtools

/-- Python truthiness of an optional string: `None` and `""` are falsy,
every other string is truthy. -/
def pyTruthy : Option String → Bool
  | none => false
  | some s => s != ""

/-- Python `str()` applied where the value may be `None` (as in
`str.format`): `None` renders as the text `None`. -/
def pyStrOpt : Option String → String
  | none => "None"
  | some s => s

/-- Splitting a list of characters at every occurrence of `c`, the
semantics of Python `str.split` with a one-character separator
(`"".split(c) = [""]`, adjacent separators yield empty segments). -/
def splitCharAux (c : Char) : List Char → List Char → List (List Char)
  | [], acc => [acc.reverse]
  | x :: xs, acc =>
    if x == c then acc.reverse :: splitCharAux c xs []
    else splitCharAux c xs (x :: acc)

/-- Python `s.split(c)` for a one-character separator `c`. -/
def splitChar (c : Char) (s : String) : List String :=
  (splitCharAux c s.toList []).map fun l => String.mk l

/-- POSIX `os.path.basename`: the substring after the last slash. -/
def basename (s : String) : String := (splitChar '/' s).getLastD ""

/-- Python `s.split(':')[-1]`: the last colon-delimited segment. -/
def lastColonSegment (s : String) : String := (splitChar ':' s).getLastD ""

/-- State of a `Dependency` object: the four private attributes set by
`__init__` plus the plain attribute `setup`. -/
structure Dependency where
  _name : Option String
  _remote : Option String
  _tag : Option String
  _branch : Option String
  setup : Option String
deriving DecidableEq, Repr

/-- Class attribute `Dependency.default_branch = 'master'`. -/
def Dependency.default_branch : String := "master"

/-- `Dependency.__init__`: raises when `tag` and `branch` are both
truthy; when both are falsy, `branch` is replaced by the default
branch before being stored. -/
def Dependency.construct (name remote branch tag setup : Option String) :
    Except String Dependency :=
  if pyTruthy tag && pyTruthy branch then
    Except.error "Must only supply tag or branch, not both."
  else if !pyTruthy tag && !pyTruthy branch then
    Except.ok { _name := name, _remote := remote, _tag := tag,
                _branch := some Dependency.default_branch, setup := setup }
  else
    Except.ok { _name := name, _remote := remote, _tag := tag,
                _branch := branch, setup := setup }

/-- Property getter `Dependency.remote`: the stored remote when truthy,
else an error when `_name` is falsy, else `'../../njoy/' + packageName`.
In that last branch `_name` is truthy, so the Python call
`self.packageName` evaluates to `self._name.split(':')[-1]`, inlined
here to keep the definition non-recursive. -/
def Dependency.remote (d : Dependency) : Except String String :=
  if pyTruthy d._remote then Except.ok (d._remote.getD "")
  else if !pyTruthy d._name then
    Except.error "Dependency must have name and/or remote defined."
  else Except.ok ("../../njoy/" ++ lastColonSegment (d._name.getD ""))

/-- Property getter `Dependency.packageName`: the last colon-delimited
segment of `_name` when truthy, else the basename of `self.remote`
(propagating the error `self.remote` may raise). -/
def Dependency.packageName (d : Dependency) : Except String String :=
  if pyTruthy d._name then Except.ok (lastColonSegment (d._name.getD ""))
  else basename <$> d.remote

/-- Property getter `Dependency.name`: `_name` when truthy, else the
basename of `self.remote`. -/
def Dependency.name (d : Dependency) : Except String String :=
  if pyTruthy d._name then Except.ok (d._name.getD "")
  else basename <$> d.remote

/-- Property getter `Dependency.libName`: `_name` when truthy, else
`'njoy::' + basename(self.remote)`. -/
def Dependency.libName (d : Dependency) : Except String String :=
  if pyTruthy d._name then Except.ok (d._name.getD "")
  else (fun r => "njoy::" ++ basename r) <$> d.remote

/-- Property getter `Dependency.live_at_head`:
`True if self._branch else False`. -/
def Dependency.live_at_head (d : Dependency) : Bool := pyTruthy d._branch

/-- Property getter `Dependency.tag`: `'origin/' + self._branch` when
live at head, else the stored `_tag` (possibly `None`). -/
def Dependency.tag (d : Dependency) : Option String :=
  if d.live_at_head then some ("origin/" ++ d._branch.getD "")
  else d._tag

/-- Property getter `Dependency.branch`: `return self.tag`. -/
def Dependency.branch (d : Dependency) : Option String := d.tag

/-- Property setter `Dependency.name`. -/
def Dependency.setName (d : Dependency) (value : String) : Dependency :=
  { d with _name := some value }

/-- Property setter `Dependency.remote`. -/
def Dependency.setRemote (d : Dependency) (value : String) : Dependency :=
  { d with _remote := some value }

/-- Property setter `Dependency.branch`: stores the branch and clears
the tag. -/
def Dependency.setBranch (d : Dependency) (value : String) : Dependency :=
  { d with _branch := some value, _tag := none }

/-- Property setter `Dependency.tag`: stores the tag and clears the
branch. -/
def Dependency.setTag (d : Dependency) (value : String) : Dependency :=
  { d with _tag := some value, _branch := none }

/-- Method `Dependency.fetchcontent_declare`: renders the dedented
template with `packageName`, `remote` and `tag` interpolated, appends
the `GIT_SHALLOW` line when live at head, the closing parenthesis
line, and `setup + '\n'` when `setup` is truthy.  Errors raised while
resolving `packageName` or `remote` propagate. -/
def Dependency.fetchcontent_declare (d : Dependency) : Except String String :=
  match d.packageName with
  | Except.error e => Except.error e
  | Except.ok pn =>
    match d.remote with
    | Except.error e => Except.error e
    | Except.ok rem =>
      let result := "shacl_FetchContent_Declare( " ++ pn
          ++ "\n    GIT_REPOSITORY  " ++ rem
          ++ "\n    GIT_TAG         " ++ pyStrOpt d.tag ++ "\n"
      let result := if d.live_at_head then
          result ++ "    GIT_SHALLOW     TRUE\n" else result
      let result := result ++ "    )\n"
      let result := if pyTruthy d.setup then
          result ++ d.setup.getD "" ++ "\n" else result
      Except.ok result

/-- Mutual-exclusion invariant: the stored branch and stored tag are
not both truthy. -/
def Dependency.atMostOneMode (d : Dependency) : Prop :=
  ¬(pyTruthy d._branch = true ∧ pyTruthy d._tag = true)

/-- The example dependency of the demonstration block:
`Dependency(name='foo')`. -/
def depFoo : Dependency :=
  { _name := some "foo", _remote := none, _tag := none,
    _branch := some "master", setup := none }

/-- The example dependency of the spec: `name="bar"`, `tag="v1.0"`. -/
def depBar : Dependency :=
  { _name := some "bar", _remote := none, _tag := some "v1.0",
    _branch := none, setup := none }

/-- The example dependency with explicit name `njoy::dimwits`. -/
def depDimwits : Dependency :=
  { _name := some "njoy::dimwits", _remote := none, _tag := none,
    _branch := some "master", setup := none }

/-- An example dependency carrying only an explicit remote. -/
def depRem : Dependency :=
  { _name := none, _remote := some "https://example.org/repos/r.git",
    _tag := none, _branch := some "master", setup := none }

/-- An example dependency with neither name nor remote. -/
def depAnon : Dependency :=
  { _name := none, _remote := none, _tag := none,
    _branch := some "master", setup := none }

/-- C1: when the derived remote and tag resolve, `fetchcontent_declare`
returns exactly the declaration block with the literal keyword tokens
and spacing of the template, the `GIT_SHALLOW` line iff live at head,
the closing line, and the setup text plus newline iff `setup` is
non-empty. -/
theorem fetchcontent_declare_exact (d : Dependency) (pn rem tg : String)
    (hp : d.packageName = Except.ok pn) (hr : d.remote = Except.ok rem)
    (ht : d.tag = some tg) :
    d.fetchcontent_declare = Except.ok
      ("shacl_FetchContent_Declare( " ++ pn
        ++ "\n    GIT_REPOSITORY  " ++ rem
        ++ "\n    GIT_TAG         " ++ tg ++ "\n"
        ++ (if d.live_at_head = true then "    GIT_SHALLOW     TRUE\n" else "")
        ++ "    )\n"
        ++ (if pyTruthy d.setup = true then d.setup.getD "" ++ "\n" else "")) := by
  unfold Dependency.fetchcontent_declare
  rw [hp, hr, ht]
  cases hl : d.live_at_head <;> cases hs : pyTruthy d.setup <;>
    simp [pyStrOpt, hl, hs, String.append_assoc, String.append_empty]

/-- Witness for C1 at the spec example `name="bar"`, `tag="v1.0"`. -/
theorem fetchcontent_declare_exact_witness :
    depBar.fetchcontent_declare = Except.ok
      "shacl_FetchContent_Declare( bar\n    GIT_REPOSITORY  ../../njoy/bar\n    GIT_TAG         v1.0\n    )\n" := by
  have h := fetchcontent_declare_exact depBar "bar" "../../njoy/bar" "v1.0"
    (by rfl) (by rfl) (by rfl)
  exact h.trans (by rfl)

/-- C2: constructing with both `tag` and `branch` truthy fails with the
configuration error and produces no `Dependency`. -/
theorem construct_both_fails (name remote branch tag setup : Option String)
    (ht : pyTruthy tag = true) (hb : pyTruthy branch = true) :
    Dependency.construct name remote branch tag setup =
      Except.error "Must only supply tag or branch, not both." := by
  unfold Dependency.construct
  rw [ht, hb]
  rfl

/-- Witness for C2 at `branch="develop"`, `tag="v1.0"`. -/
theorem construct_both_fails_witness :
    Dependency.construct (some "x") none (some "develop") (some "v1.0") none =
      Except.error "Must only supply tag or branch, not both." :=
  construct_both_fails (some "x") none (some "develop") (some "v1.0") none
    (by rfl) (by rfl)

/-- C3: constructing with neither `tag` nor `branch` supplied defaults
the branch to `master`; afterwards `live_at_head` is true and the
resolved tag is `origin/master`. -/
theorem construct_default_branch
    (name remote branch tag setup : Option String) (d : Dependency)
    (ht : pyTruthy tag = false) (hb : pyTruthy branch = false)
    (h : Dependency.construct name remote branch tag setup = Except.ok d) :
    d._branch = some "master" ∧ d.live_at_head = true ∧
      d.tag = some "origin/master" := by
  unfold Dependency.construct at h
  rw [ht, hb] at h
  simp at h
  subst h
  exact ⟨rfl, rfl, rfl⟩

/-- Witness for C3 at `name="foo"`. -/
theorem construct_default_branch_witness :
    depFoo._branch = some "master" ∧ depFoo.live_at_head = true ∧
      depFoo.tag = some "origin/master" :=
  construct_default_branch (some "foo") none none none none depFoo
    (by rfl) (by rfl) (by rfl)

/-- C4: mutual exclusion is an invariant: after a successful
construction and after every `setBranch` or `setTag` mutation at most
one of the stored branch and stored tag is truthy; `setBranch` then
`setTag` leaves only the tag stored, and `setTag` then `setBranch`
leaves only the branch stored. -/
theorem mode_mutual_exclusion
    (name remote branch tag setup : Option String) (d e : Dependency)
    (v w : String)
    (h : Dependency.construct name remote branch tag setup = Except.ok d) :
    d.atMostOneMode
    ∧ (e.setBranch v).atMostOneMode
    ∧ (e.setTag v).atMostOneMode
    ∧ ((e.setBranch v).setTag w)._tag = some w
    ∧ ((e.setBranch v).setTag w)._branch = none
    ∧ ((e.setTag v).setBranch w)._branch = some w
    ∧ ((e.setTag v).setBranch w)._tag = none := by
  refine ⟨?_, ?_, ?_, rfl, rfl, rfl, rfl⟩
  · cases htg : pyTruthy tag <;> cases hbr : pyTruthy branch <;>
      simp [Dependency.construct, htg, hbr] at h <;>
      subst h <;>
      simp [Dependency.atMostOneMode, htg, hbr]
  · simp [Dependency.atMostOneMode, Dependency.setBranch, pyTruthy]
  · simp [Dependency.atMostOneMode, Dependency.setTag, pyTruthy]

/-- Witness for C4 at concrete constructions and mutations. -/
theorem mode_mutual_exclusion_witness :
    depFoo.atMostOneMode
    ∧ (depBar.setBranch "dev").atMostOneMode
    ∧ (depBar.setTag "dev").atMostOneMode
    ∧ ((depBar.setBranch "dev").setTag "v2")._tag = some "v2"
    ∧ ((depBar.setBranch "dev").setTag "v2")._branch = none
    ∧ ((depBar.setTag "dev").setBranch "v2")._branch = some "v2"
    ∧ ((depBar.setTag "dev").setBranch "v2")._tag = none :=
  mode_mutual_exclusion (some "foo") none none none none depFoo depBar
    "dev" "v2" (by rfl)

/-- C5: reading `remote` with both `_name` and `_remote` falsy fails
with the configuration error. -/
theorem remote_unset_fails (d : Dependency)
    (hn : pyTruthy d._name = false) (hr : pyTruthy d._remote = false) :
    d.remote =
      Except.error "Dependency must have name and/or remote defined." := by
  unfold Dependency.remote
  rw [hr, hn]
  rfl

/-- Witness for C5 at a dependency with neither name nor remote. -/
theorem remote_unset_fails_witness :
    depAnon.remote =
      Except.error "Dependency must have name and/or remote defined." :=
  remote_unset_fails depAnon (by rfl) (by rfl)

/-- C6: `remote` returns the stored remote when set, otherwise (with a
name set) `../../njoy/` followed by the package name; at `name="foo"`
with no remote it yields `../../njoy/foo` and `libName` yields `foo`. -/
theorem resolved_remote_spec (d : Dependency) :
    (pyTruthy d._remote = true → d.remote = Except.ok (d._remote.getD ""))
    ∧ (pyTruthy d._remote = false → pyTruthy d._name = true →
        d.packageName = Except.ok (lastColonSegment (d._name.getD ""))
        ∧ d.remote =
            Except.ok ("../../njoy/" ++ lastColonSegment (d._name.getD "")))
    ∧ depFoo.remote = Except.ok "../../njoy/foo"
    ∧ depFoo.libName = Except.ok "foo" := by
  refine ⟨?_, ?_, by rfl, by rfl⟩
  · intro h
    simp [Dependency.remote, h]
  · intro h1 h2
    exact ⟨by simp [Dependency.packageName, h2],
      by simp [Dependency.remote, h1, h2]⟩

/-- Witness for C6 at a stored remote and at `name="bar"`. -/
theorem resolved_remote_spec_witness :
    depRem.remote = Except.ok (depRem._remote.getD "")
    ∧ depBar.remote =
        Except.ok ("../../njoy/" ++ lastColonSegment (depBar._name.getD "")) :=
  ⟨(resolved_remote_spec depRem).1 (by rfl),
    ((resolved_remote_spec depBar).2.1 (by rfl) (by rfl)).2⟩

/-- C7: `live_at_head` holds iff the stored branch is truthy, and the
resolved tag is `origin/` plus the branch when live at head, else the
stored tag. -/
theorem live_at_head_tag (d : Dependency) :
    (d.live_at_head = true ↔ pyTruthy d._branch = true)
    ∧ (d.live_at_head = true →
        d.tag = some ("origin/" ++ d._branch.getD ""))
    ∧ (d.live_at_head = false → d.tag = d._tag) := by
  refine ⟨Iff.rfl, ?_, ?_⟩
  · intro h
    simp [Dependency.tag, h]
  · intro h
    simp [Dependency.tag, h]

/-- Witness for C7 at a branch-mode and a tag-mode dependency. -/
theorem live_at_head_tag_witness :
    depFoo.tag = some ("origin/" ++ depFoo._branch.getD "")
    ∧ depBar.tag = depBar._tag :=
  ⟨(live_at_head_tag depFoo).2.1 (by rfl),
    (live_at_head_tag depBar).2.2 (by rfl)⟩

/-- C8: `packageName` is the last colon-delimited segment of `_name`
when set (`dimwits` for `njoy::dimwits`), else the basename of the
resolved remote. -/
theorem packageName_spec (d : Dependency) :
    (pyTruthy d._name = true →
      d.packageName = Except.ok (lastColonSegment (d._name.getD "")))
    ∧ (pyTruthy d._name = false → d.packageName = basename <$> d.remote)
    ∧ depDimwits.packageName = Except.ok "dimwits" := by
  refine ⟨?_, ?_, by rfl⟩
  · intro h
    simp [Dependency.packageName, h]
  · intro h
    simp [Dependency.packageName, h]

/-- Witness for C8 at `njoy::dimwits` and at a remote-only dependency. -/
theorem packageName_spec_witness :
    depDimwits.packageName =
      Except.ok (lastColonSegment (depDimwits._name.getD ""))
    ∧ depRem.packageName = basename <$> depRem.remote :=
  ⟨(packageName_spec depDimwits).1 (by rfl),
    (packageName_spec depRem).2.1 (by rfl)⟩

/-- C9: rendering is a pure function of the field state: two
dependencies with identical fields render byte-identical output. -/
theorem render_deterministic (d1 d2 : Dependency)
    (h1 : d1._name = d2._name) (h2 : d1._remote = d2._remote)
    (h3 : d1._branch = d2._branch) (h4 : d1._tag = d2._tag)
    (h5 : d1.setup = d2.setup) :
    d1.fetchcontent_declare = d2.fetchcontent_declare := by
  have heq : d1 = d2 := by
    cases d1
    cases d2
    simp_all
  rw [heq]

/-- Witness for C9: two distinct terms with identical fields. -/
theorem render_deterministic_witness :
    depBar.fetchcontent_declare = (depBar.setTag "v1.0").fetchcontent_declare :=
  render_deterministic depBar (depBar.setTag "v1.0") rfl rfl rfl rfl rfl

/-- C10: the `branch` getter returns exactly the `tag` getter's value:
`origin/` plus the branch name in branch mode, the stored tag in tag
mode. -/
theorem branch_getter_eq_tag (d : Dependency) :
    d.branch = d.tag
    ∧ (d.live_at_head = true →
        d.branch = some ("origin/" ++ d._branch.getD ""))
    ∧ (d.live_at_head = false → d.branch = d._tag) := by
  refine ⟨rfl, ?_, ?_⟩
  · intro h
    simp [Dependency.branch, Dependency.tag, h]
  · intro h
    simp [Dependency.branch, Dependency.tag, h]

/-- Witness for C10 at a branch-mode and a tag-mode dependency. -/
theorem branch_getter_eq_tag_witness :
    depFoo.branch = some ("origin/" ++ depFoo._branch.getD "")
    ∧ depBar.branch = depBar._tag :=
  ⟨(branch_getter_eq_tag depFoo).2.1 (by rfl),
    (branch_getter_eq_tag depBar).2.2 (by rfl)⟩

end Devtools
